import Mathlib

/-!
Verification development for the KidSkills quiz game frontend.

The definitions below are shallow embeddings of the JavaScript source under
src/: the game-session controller (src/frontend/src/hooks/useGameState.js and
its legacy variant src/unnamed/part_005), the API client
(src/frontend/src/services/api.js and its variant src/unnamed/part_019), and
the question/answer UI components (src/frontend/src/components/QuestionDisplay.js,
src/frontend/src/components/DirectAnswerInput.js, src/unnamed/part_013).
JavaScript dynamic values are modelled by an explicit value type with JS
truthiness; React state updates are modelled as explicit state-passing at the
granularity of event-loop turns.
-/

namespace KidSkills

/-- A JavaScript value, restricted to the shapes that flow through the
is_correct / feedback fields in this code base. -/
inductive JSVal where
  | vNull
  | vUndefined
  | vBool (b : Bool)
  | vNum (n : Int)
  | vStr (s : String)
  deriving Repr, DecidableEq

/-- JavaScript truthiness, as applied by Boolean(x), by `if (x)` and by
the ternary operator: null, undefined, false, 0 and the empty string are
falsy, everything else is truthy (NaN does not arise in this code base). -/
def jsBoolean : JSVal → Bool
  | .vNull => false
  | .vUndefined => false
  | .vBool b => b
  | .vNum n => n != 0
  | .vStr s => s != ""

/-- The coercion applied by submitAnswer in src/frontend/src/services/api.js
(lines 96-99): the response's is_correct field is replaced by
Boolean(response.data.is_correct). -/
def submitAnswerCoerce (upstream : JSVal) : JSVal :=
  .vBool (jsBoolean upstream)

/-- The parse performed by getChoiceClass in
src/frontend/src/components/QuestionDisplay.js (line 98 and line 325):
feedback.is_correct === true || feedback.is_correct === "true". -/
def getChoiceClassIsCorrect (v : JSVal) : Bool :=
  v == .vBool true || v == .vStr "true"

/-- Session counters of the legacy controller variant src/unnamed/part_005,
which tracks a streak alongside score and question count. -/
structure Counters where
  score : Nat
  streak : Nat
  questionCount : Nat
  deriving Repr, DecidableEq

/-- The streak bonus computed inside handleAnswer in src/unnamed/part_005
(lines 217-226 and 268-277). The source reads the streak state variable
before the setStreak(streak + 1) update is applied, so the argument here is
the pre-answer streak value. -/
def streakBonus (streak : Nat) : Nat :=
  if 2 ≤ streak ∧ streak < 4 then 5
  else if 4 ≤ streak ∧ streak < 9 then 10
  else if 9 ≤ streak ∧ streak < 14 then 15
  else if 14 ≤ streak then 20
  else 0

/-- The same bonus expressed as a function of the streak value that results
from a correct answer (resulting streak = previous streak + 1). -/
def streakBonusOfResult (resultingStreak : Nat) : Nat :=
  streakBonus (resultingStreak - 1)

/-- The counter update performed by handleAnswer in src/unnamed/part_005:
on a correct answer, streak increments and the score grows by the base award
of 10 plus the streak bonus (lines 204-227 and 256-278); on an incorrect
answer the streak resets and the score is untouched (lines 228-231 and
279-281); the question count increments in both cases (lines 233-234 and
283-284). -/
def handleAnswerCounters (c : Counters) (isCorrect : Bool) : Counters :=
  if isCorrect then
    { score := c.score + 10 + streakBonus c.streak
      streak := c.streak + 1
      questionCount := c.questionCount + 1 }
  else
    { c with streak := 0, questionCount := c.questionCount + 1 }

/-- Session counters of the current controller
src/frontend/src/hooks/useGameState.js, which tracks no streak. -/
structure CountersNoStreak where
  score : Nat
  questionCount : Nat
  deriving Repr, DecidableEq

/-- The counter update performed by handleAnswer in
src/frontend/src/hooks/useGameState.js (lines 327-341 and 358-372): a correct
answer awards 1 point ("Base points: 1 for correct answer"), an incorrect
answer changes nothing, and the question count always increments. -/
def handleAnswerCountersMain (c : CountersNoStreak) (isCorrect : Bool) : CountersNoStreak :=
  if isCorrect then
    { score := c.score + 1, questionCount := c.questionCount + 1 }
  else
    { c with questionCount := c.questionCount + 1 }

/-- The question_type selection in getQuestion,
src/frontend/src/services/api.js line 62. -/
def getQuestionType (sub_activity : String) : String :=
  if sub_activity == "Grammar Correction" then "direct-answer" else "multiple-choice"

/-- A question as consumed by the evaluation paths. A missing (undefined)
string field is modelled as the empty string, which is equally falsy in
JavaScript conditions. -/
structure Question where
  question : String
  answer : String
  correct_answer : String
  sub_activity : String
  deriving Repr, DecidableEq

/-- JavaScript String.prototype.toLowerCase for the ASCII strings that occur
in this code base. -/
def jsToLowerCase (s : String) : String :=
  String.mk (s.data.map Char.toLower)

/-- Characters removed by JavaScript String.prototype.trim (the whitespace
forms that occur in this code base). -/
def jsWhitespaceChar (c : Char) : Bool :=
  c == ' ' || c == '\t' || c == '\n' || c == '\r' || c == '\x0b' || c == '\x0c'

/-- JavaScript String.prototype.trim. -/
def jsTrim (s : String) : String :=
  String.mk (((s.data.dropWhile jsWhitespaceChar).reverse.dropWhile jsWhitespaceChar).reverse)

/-- Whether a character list starts with the given pattern. -/
def startsWithChars : List Char → List Char → Bool
  | _, [] => true
  | [], _ :: _ => false
  | c :: cs, p :: ps => c == p && startsWithChars cs ps

/-- Whether a character list contains the given pattern as a contiguous run. -/
def containsChars : List Char → List Char → Bool
  | [], pat => pat.isEmpty
  | c :: cs, pat => startsWithChars (c :: cs) pat || containsChars cs pat

/-- Replace the first occurrence of a non-empty pattern in a character list. -/
def replaceFirstChars : List Char → List Char → List Char → List Char
  | [], _, _ => []
  | c :: cs, pat, rep =>
    if startsWithChars (c :: cs) pat && !pat.isEmpty then
      rep ++ (c :: cs).drop pat.length
    else c :: replaceFirstChars cs pat rep

/-- JavaScript String.prototype.includes for the non-empty search strings
used by handleAnswer's grammar heuristics. -/
def jsIncludes (s pat : String) : Bool :=
  containsChars s.data pat.data

/-- JavaScript String.prototype.replace with a string pattern: only the
first occurrence is replaced (the source only uses non-empty patterns). -/
def replaceFirst (s pat rep : String) : String :=
  String.mk (replaceFirstChars s.data pat.data rep.data)

/-- The hardcoded grammar-correction heuristics of handleAnswer in
src/frontend/src/hooks/useGameState.js (lines 293-309): patch common
was/were, see/sees and should-of mistakes, else fall back to the question
text itself. -/
def grammarHeuristic (question : String) : String :=
  if jsIncludes question " was " && (jsIncludes question " and " || jsIncludes question ",") then
    replaceFirst question " was " " were "
  else if jsIncludes question " see " then
    replaceFirst question " see " " sees "
  else if jsIncludes question " should of " then
    replaceFirst question " should of " " should have "
  else question

/-- The expected-answer cascade of handleAnswer in
src/frontend/src/hooks/useGameState.js (lines 283-311): take the evaluator's
correct_answer if truthy, else the question's answer, else the question's
correct_answer, else (for Grammar Correction with a non-empty question text)
a heuristic correction of the question text. -/
def expectedAnswerOf (q : Question) (aiCorrectAnswer : String) : String :=
  let e := aiCorrectAnswer
  if e == "" && q.answer != "" then q.answer
  else if e == "" && q.correct_answer != "" then q.correct_answer
  else if e == "" then
    if (q.sub_activity == "Grammar Correction") && q.question != "" then
      grammarHeuristic q.question
    else e
  else e

/-- The feedback record stored by the controller for a submitted answer. -/
structure Feedback where
  is_correct : JSVal
  correct_answer : String
  ai_evaluated : Bool
  feedback : String
  deriving Repr, DecidableEq

/-- The aiEvaluation argument passed from DirectAnswerInput to handleAnswer. -/
structure Evaluation where
  is_correct : JSVal
  feedback : String
  correct_answer : String
  deriving Repr, DecidableEq

/-- The AI-evaluation branch of handleAnswer in
src/frontend/src/hooks/useGameState.js (lines 313-319): the feedback stored
for an AI-evaluated submission keeps the evaluator's is_correct value
unchanged, resolves correct_answer through the cascade, and always sets
ai_evaluated to true. -/
def handleAnswerAIFeedback (q : Question) (ai : Evaluation) : Feedback :=
  { is_correct := ai.is_correct
    correct_answer := expectedAnswerOf q ai.correct_answer
    ai_evaluated := true
    feedback :=
      if ai.feedback != "" then ai.feedback
      else if jsBoolean ai.is_correct then "Correct!" else "Incorrect" }

/-- The response shape of the grammar-evaluation collaborator. -/
structure EvalResult where
  is_correct : JSVal
  feedback : String
  deriving Repr, DecidableEq

/-- The catch-block fallback of evaluateGrammarCorrection in
src/unnamed/part_019 (lines 232-239): case-insensitive trimmed string
equality with a generic message. -/
def grammarCorrectionFallback (userAnswer correctAnswer : String) : EvalResult :=
  let isCorrect := jsTrim (jsToLowerCase userAnswer) == jsTrim (jsToLowerCase correctAnswer)
  { is_correct := .vBool isCorrect
    feedback :=
      if isCorrect then "Great job! You fixed the grammar error correctly."
      else "Good try! Check the sentence structure again." }

/-- evaluateGrammarCorrection in src/unnamed/part_019 (lines 188-241): the
collaborator outcome when it answers, the local fallback when it throws or
rejects (modelled as none). -/
def evaluateGrammarCorrection (collaborator : Option EvalResult)
    (userAnswer correctAnswer : String) : EvalResult :=
  match collaborator with
  | some response => response
  | none => grammarCorrectionFallback userAnswer correctAnswer

/-- correctAnswerFromQuestion in src/unnamed/part_013 (line 136):
question?.answer || question?.correct_answer || "". -/
def correctAnswerFromQuestion (q : Question) : String :=
  if q.answer != "" then q.answer
  else if q.correct_answer != "" then q.correct_answer
  else ""

/-- The grammar branch of handleSubmit in src/unnamed/part_013 (lines
134-216) composed with the handleAnswer AI branch: evaluate (with fallback
on collaborator failure), enhance the evaluation with the question's correct
answer (lines 192-195), and store the resulting feedback. -/
def submitGrammarAnswer (q : Question) (collaborator : Option EvalResult)
    (userAnswer : String) : Feedback :=
  let ca := correctAnswerFromQuestion q
  let ev := evaluateGrammarCorrection collaborator userAnswer ca
  handleAnswerAIFeedback q
    { is_correct := ev.is_correct, feedback := ev.feedback, correct_answer := ca }

/-- The catch-block fallback evaluation of handleSubmit in
src/unnamed/part_013 (lines 217-227), produced when the evaluation call
itself rejects. -/
def part013FallbackEvaluation (q : Question) : Evaluation :=
  { is_correct := .vBool false
    feedback := "There was a problem evaluating your answer. Please try again."
    correct_answer := correctAnswerFromQuestion q }

/-- The activity registry of src/frontend/src/constants.js (lines 2-5). -/
def SUB_ACTIVITIES (subject : String) : List String :=
  if subject == "Math" then
    ["Addition/Subtraction", "Multiplication/Division", "Word Problems",
     "Mushroom Kingdom Calculations"]
  else if subject == "English" then
    ["Opposites/Antonyms", "Synonyms", "Reading Comprehension", "Nouns/Pronouns",
     "Grammar Correction", "Mushroom Kingdom Vocabulary"]
  else []

/-- The subject-key normalization in getDefaultSubActivity
(src/frontend/src/constants.js line 9): first character upper-cased, rest
lower-cased. -/
def capitalizeKey (s : String) : String :=
  match s.data with
  | [] => ""
  | c :: cs => String.mk (c.toUpper :: cs.map Char.toLower)

/-- getDefaultSubActivity in src/frontend/src/constants.js (lines 8-11). -/
def getDefaultSubActivity (subject : String) : String :=
  match (SUB_ACTIVITIES (capitalizeKey subject)).head? with
  | some a => a
  | none => "Addition/Subtraction"

/-- The settings held by the controller. -/
structure Settings where
  subject : String
  sub_activity : String
  difficulty : String
  deriving Repr, DecidableEq

/-- A partial settings object as passed to updateSettings. -/
structure SettingsPatch where
  subject : Option String
  sub_activity : Option String
  difficulty : Option String
  deriving Repr, DecidableEq

/-- updateSettings in src/frontend/src/hooks/useGameState.js (lines 113-116):
an unvalidated object-spread merge. -/
def updateSettings (s : Settings) (p : SettingsPatch) : Settings :=
  { subject := p.subject.getD s.subject
    sub_activity := p.sub_activity.getD s.sub_activity
    difficulty := p.difficulty.getD s.difficulty }

/-- The subject/sub-activity validation effect in
src/frontend/src/hooks/useGameState.js (lines 20-50): when the stored
sub-activity is not registered for the stored subject, it is replaced by the
subject's default activity on the following render tick. -/
def validateSubActivity (s : Settings) : Settings :=
  if s.subject != "" then
    if (SUB_ACTIVITIES s.subject).contains s.sub_activity then s
    else { s with sub_activity := getDefaultSubActivity s.subject }
  else s

/-- A settings update as observed after the validation effect has run. -/
def settledUpdate (s : Settings) (p : SettingsPatch) : Settings :=
  validateSubActivity (updateSettings s p)

/-- The game-session slice touched by an answer submission. -/
structure GameSession where
  currentQuestion : Option Question
  selectedPlayer : Option Nat
  feedback : Option Feedback
  counters : Counters
  loading : Bool
  deriving Repr, DecidableEq

/-- Local state of the QuestionDisplay component. -/
structure QuestionDisplayState where
  selectedChoice : Option String
  localSubmitted : Bool
  deriving Repr, DecidableEq

/-- Combined component-plus-controller state for the submission flow;
pendingSubmits counts answer submissions handed to the API and not yet
resolved. -/
structure UIState where
  game : GameSession
  qd : QuestionDisplayState
  pendingSubmits : Nat
  deriving Repr, DecidableEq

/-- isSubmitted in src/frontend/src/components/QuestionDisplay.js (line 272):
the parent's submitted prop (feedback !== null, as passed by MainContent) or
the component's local flag. -/
def isSubmitted (st : UIState) : Bool :=
  st.qd.localSubmitted || st.game.feedback.isSome

/-- One press of the Submit Answer button: handleSubmit in
src/frontend/src/components/QuestionDisplay.js (lines 300-308) — a no-op
unless a choice is selected, nothing is loading and nothing was submitted —
composed with the entry of handleAnswer in
src/frontend/src/hooks/useGameState.js (lines 263-267 and 345), which
returns without effect when no question or player is present and otherwise
starts the API submission with loading set. -/
def handleSubmitPress (st : UIState) : UIState :=
  if st.qd.selectedChoice.isNone || st.game.loading || isSubmitted st then st
  else
    let st' : UIState := { st with qd := { st.qd with localSubmitted := true } }
    if st'.game.currentQuestion.isNone || st'.game.selectedPlayer.isNone then st'
    else
      { st' with
        pendingSubmits := st'.pendingSubmits + 1
        game := { st'.game with loading := true } }

/-- Resolution of one in-flight answer submission: the remainder of
handleAnswer (src/frontend/src/hooks/useGameState.js lines 347-379, counter
arithmetic per the streak-tracking variant src/unnamed/part_005 lines
245-290): store the feedback and apply the counter update, clearing the
loading flag. -/
def resolveSubmit (st : UIState) (result : Feedback) : UIState :=
  if st.pendingSubmits == 0 then st
  else
    { st with
      pendingSubmits := st.pendingSubmits - 1
      game := { st.game with
        feedback := some result
        counters := handleAnswerCounters st.game.counters (jsBoolean result.is_correct)
        loading := false } }

/-- The session slice touched by the next-question flow and by resets. -/
structure FetchSession where
  currentQuestion : Option Question
  feedback : Option Feedback
  selectedAnswer : Option String
  score : Nat
  questionCount : Nat
  loading : Bool
  loadingNextQuestion : Bool
  fetchPending : Bool
  deriving Repr, DecidableEq

/-- nextQuestion in src/frontend/src/hooks/useGameState.js (lines 383-400)
up to the question fetch: set the loading flags, clear feedback and the
selected answer, and leave a fetch in flight. -/
def nextQuestionStart (s : FetchSession) : FetchSession :=
  { s with
    loadingNextQuestion := true
    loading := true
    feedback := none
    selectedAnswer := none
    fetchPending := true }

/-- resetGameState in src/frontend/src/hooks/useGameState.js (lines 431-447),
also run by selectPlayer on a player change (lines 104-110) and by resetGame
(lines 450-455): every session field is reset, but no in-flight fetch is
cancelled and no request token exists, so fetchPending survives. -/
def resetGameState (s : FetchSession) : FetchSession :=
  { currentQuestion := none
    feedback := none
    selectedAnswer := none
    score := 0
    questionCount := 0
    loading := false
    loadingNextQuestion := false
    fetchPending := s.fetchPending }

/-- Resolution of the fetch started by nextQuestion
(src/frontend/src/hooks/useGameState.js lines 401-419): whenever a fetch is
in flight, its result is written to currentQuestion unconditionally. -/
def nextQuestionResolve (s : FetchSession) (q : Question) : FetchSession :=
  if s.fetchPending then
    { s with
      currentQuestion := some q
      loading := false
      loadingNextQuestion := false
      fetchPending := false }
  else s

/-- Actions a timer callback can hand back to the controller. -/
inductive UIAction where
  | invokeNextQuestion
  deriving Repr, DecidableEq, BEq

/-- The 6000 ms timeout scheduled by handleSubmit in
src/frontend/src/components/QuestionDisplay.js (lines 80-86): its callback
body is empty (only the comments "This will be handled by the useGameState
hook" / "We don't need to do anything here"), so expiry performs no
action. -/
def nextQuestionTimerOnExpire : List UIAction := []

/-- State of the visible countdown in QuestionDisplay. -/
structure CountdownState where
  timeLeft : Nat
  submitted : Bool
  feedbackShown : Bool
  deriving Repr, DecidableEq

/-- One tick of the countdown effect in
src/frontend/src/components/QuestionDisplay.js (lines 44-59): while an
answer is submitted and feedback is shown, timeLeft is decremented with a
floor of 0; the tick drives only the displayed number and performs no other
action. -/
def countdownTick (s : CountdownState) : CountdownState :=
  if s.submitted && s.feedbackShown then { s with timeLeft := s.timeLeft - 1 } else s

end KidSkills

namespace KidSkills

/-- C10: for every question request sent to the provider by the API client,
question_type is "direct-answer" exactly when the requested sub-activity is
"Grammar Correction", and "multiple-choice" for every other sub-activity,
including "Reading Comprehension". -/
theorem C10_question_type_mapping (sa : String) :
    (getQuestionType sa = "direct-answer" ↔ sa = "Grammar Correction") ∧
    (sa ≠ "Grammar Correction" → getQuestionType sa = "multiple-choice") ∧
    getQuestionType "Reading Comprehension" = "multiple-choice" := by
  refine ⟨?_, ?_, rfl⟩
  · constructor
    · intro h
      by_contra hne
      simp [getQuestionType, hne] at h
    · intro h
      simp [getQuestionType, h]
  · intro h
    simp [getQuestionType, h]

/-- Witness for C10 at the concrete sub-activities named by the claim. -/
theorem C10_question_type_mapping_witness :
    getQuestionType "Grammar Correction" = "direct-answer" ∧
    getQuestionType "Reading Comprehension" = "multiple-choice" :=
  ⟨(C10_question_type_mapping "Grammar Correction").1.2 rfl,
   (C10_question_type_mapping "Reading Comprehension").2.1 (by decide)⟩

/-- The streak bonus of part_005 is monotone non-decreasing in the streak. -/
theorem streakBonus_mono {a b : Nat} (h : a ≤ b) : streakBonus a ≤ streakBonus b := by
  unfold streakBonus
  split_ifs <;> omega

/-- C3 counterexample: in the current controller
(src/frontend/src/hooks/useGameState.js), a correct answer from score 0 yields
score 1, so the score is not the old score plus a base award of 10 plus any
non-negative streak bonus. -/
theorem C3_counterexample_main_controller :
    (handleAnswerCountersMain ⟨0, 0⟩ true).score = 1 ∧
    ¬ ∃ bonus : Nat, (handleAnswerCountersMain ⟨0, 0⟩ true).score = 0 + 10 + bonus := by
  refine ⟨rfl, ?_⟩
  rintro ⟨b, hb⟩
  simp [handleAnswerCountersMain] at hb
  omega

/-- C3 (amended): in the streak-tracking controller variant
(src/unnamed/part_005), a correct answer increments the streak and awards the
base 10 points plus a streak bonus that, as a function of the resulting
streak, is monotone non-decreasing and 0 below streak 3; five correct answers
from a fresh session give score 70 = 5 * 10 + (0 + 0 + 5 + 5 + 10), streak 5
and question count 5. The current controller (useGameState.js) instead awards
a flat 1 point and tracks no streak. -/
theorem C3_correct_scoring (c : Counters) (s t : Nat) (hst : s ≤ t) :
    (handleAnswerCounters c true).streak = c.streak + 1 ∧
    (handleAnswerCounters c true).score =
      c.score + 10 + streakBonusOfResult (c.streak + 1) ∧
    streakBonusOfResult s ≤ streakBonusOfResult t ∧
    (∀ u, u < 3 → streakBonusOfResult u = 0) ∧
    (fun x => handleAnswerCounters x true)^[5] ⟨0, 0, 0⟩ = ⟨70, 5, 5⟩ ∧
    (∀ d : CountersNoStreak,
      (handleAnswerCountersMain d true).score = d.score + 1) := by
  refine ⟨rfl, ?_, ?_, ?_, by decide, fun d => rfl⟩
  · simp [handleAnswerCounters, streakBonusOfResult]
  · exact streakBonus_mono (Nat.sub_le_sub_right hst 1)
  · intro u hu
    interval_cases u <;> decide

/-- Witness for C3 at a concrete counters state and bonus arguments. -/
theorem C3_correct_scoring_witness :
    (handleAnswerCounters ⟨35, 2, 3⟩ true).streak = 3 ∧
    (handleAnswerCounters ⟨35, 2, 3⟩ true).score = 35 + 10 + streakBonusOfResult 3 ∧
    streakBonusOfResult 3 ≤ streakBonusOfResult 15 := by
  have h := C3_correct_scoring ⟨35, 2, 3⟩ 3 15 (by decide)
  exact ⟨h.1, h.2.1, h.2.2.1⟩

/-- C4: for every submitted answer that resolves as incorrect, the resulting
streak is 0 and the score is unchanged, and for every submitted answer the
question count increases by exactly 1 — in the streak-tracking controller
variant (part_005) and, for its score/count part, in the current controller
(useGameState.js) as well. -/
theorem C4_incorrect_resets_streak_rounds_increment
    (c : Counters) (d : CountersNoStreak) (b : Bool) :
    (handleAnswerCounters c false).streak = 0 ∧
    (handleAnswerCounters c false).score = c.score ∧
    (handleAnswerCounters c b).questionCount = c.questionCount + 1 ∧
    (handleAnswerCountersMain d false).score = d.score ∧
    (handleAnswerCountersMain d b).questionCount = d.questionCount + 1 := by
  refine ⟨rfl, rfl, ?_, rfl, ?_⟩ <;> cases b <;> rfl

/-- C6 counterexample: the API client's coercion is JavaScript truthiness,
so the upstream string "false" is normalized to true, not to its logical
truth value false. -/
theorem C6_counterexample_string_false :
    submitAnswerCoerce (.vStr "false") = .vBool true ∧
    submitAnswerCoerce (.vStr "false") ≠ .vBool false := by
  exact ⟨rfl, by decide⟩

/-- C6 (amended): on the plain submission path the stored is_correct is
always a strict boolean, computed by JavaScript truthiness: "true" maps to
true but so does every other non-empty string, including "false"; on the
AI-evaluation path the upstream is_correct value is stored unchanged, so a
string can be propagated there; the UI's getChoiceClass separately parses
exactly true and "true" as correct. -/
theorem C6_is_correct_coercion (v : JSVal) (s : String) (q : Question) (ai : Evaluation) :
    (∃ b : Bool, submitAnswerCoerce v = .vBool b) ∧
    submitAnswerCoerce (.vStr "true") = .vBool true ∧
    submitAnswerCoerce (.vStr "false") = .vBool true ∧
    submitAnswerCoerce (.vStr s) = .vBool (s != "") ∧
    (handleAnswerAIFeedback q ai).is_correct = ai.is_correct ∧
    getChoiceClassIsCorrect (.vStr "true") = true ∧
    getChoiceClassIsCorrect (.vStr "false") = false :=
  ⟨⟨jsBoolean v, rfl⟩, by decide, by decide, rfl, rfl, by decide, by decide⟩

/-- C5 counterexample: at the claim's own example (collaborator fails,
submitted answer "the cats are playing", known correct answer
"The Cats Are Playing"), the fallback does yield is_correct = true, but the
stored feedback has ai_evaluated = true, not false: handleAnswer marks every
evaluation passed to it as AI-evaluated, fallback results included. -/
theorem C5_counterexample_ai_evaluated :
    (submitGrammarAnswer
        ⟨"the cats is playing", "The Cats Are Playing", "", "Grammar Correction"⟩
        none "the cats are playing").is_correct = .vBool true ∧
    (submitGrammarAnswer
        ⟨"the cats is playing", "The Cats Are Playing", "", "Grammar Correction"⟩
        none "the cats are playing").ai_evaluated ≠ false := by
  exact ⟨by decide, by decide⟩

/-- C5 (amended): when the grammar-evaluation collaborator throws or
rejects, the submission is evaluated by case-insensitive, whitespace-trimmed
string equality against the question's known correct answer and a generic
encouragement message is substituted, but the stored feedback has
ai_evaluated = true, not false; in particular "the cats are playing" against
"The Cats Are Playing" is marked correct. -/
theorem C5_fallback_evaluation (q : Question) (userAnswer : String) :
    (submitGrammarAnswer q none userAnswer).is_correct =
      .vBool (jsTrim (jsToLowerCase userAnswer) ==
        jsTrim (jsToLowerCase (correctAnswerFromQuestion q))) ∧
    (submitGrammarAnswer q none userAnswer).ai_evaluated = true ∧
    ((submitGrammarAnswer q none userAnswer).feedback =
        "Great job! You fixed the grammar error correctly." ∨
     (submitGrammarAnswer q none userAnswer).feedback =
        "Good try! Check the sentence structure again.") ∧
    (submitGrammarAnswer
        ⟨"the cats is playing", "The Cats Are Playing", "", "Grammar Correction"⟩
        none "the cats are playing").is_correct = .vBool true := by
  refine ⟨rfl, rfl, ?_, by decide⟩
  by_cases h : (jsTrim (jsToLowerCase userAnswer) ==
      jsTrim (jsToLowerCase (correctAnswerFromQuestion q))) = true
  · left
    simp [submitGrammarAnswer, evaluateGrammarCorrection, grammarCorrectionFallback,
      handleAnswerAIFeedback, h]
  · right
    simp [submitGrammarAnswer, evaluateGrammarCorrection, grammarCorrectionFallback,
      handleAnswerAIFeedback, h]

/-- The expected-answer cascade never yields an empty string when the
question's answer field is populated, and synthesizes exactly that answer
when the evaluator's response omits one. -/
theorem expectedAnswerOf_populated (q : Question) (e : String) (hq : q.answer ≠ "") :
    expectedAnswerOf q e ≠ "" ∧ (e = "" → expectedAnswerOf q e = q.answer) := by
  by_cases he : e = ""
  · subst he
    constructor
    · simp [expectedAnswerOf, hq]
    · intro _
      simp [expectedAnswerOf, hq]
  · constructor
    · simp [expectedAnswerOf, he]
    · intro h
      exact absurd h he

/-- C7: every feedback stored through the AI-evaluation path has a populated
correct answer, provided the question's answer field is populated: the
cascade keeps a non-empty evaluator answer and otherwise synthesizes the
question's answer; the grammar submission pipeline (fallback included) and
the evaluation-failure fallback of DirectAnswerInput do the same. -/
theorem C7_correct_answer_populated (q : Question) (ai : Evaluation)
    (collaborator : Option EvalResult) (userAnswer : String) (hq : q.answer ≠ "") :
    (handleAnswerAIFeedback q ai).correct_answer ≠ "" ∧
    (ai.correct_answer = "" → (handleAnswerAIFeedback q ai).correct_answer = q.answer) ∧
    (submitGrammarAnswer q collaborator userAnswer).correct_answer ≠ "" ∧
    (part013FallbackEvaluation q).correct_answer = q.answer ∧
    (handleAnswerAIFeedback q (part013FallbackEvaluation q)).correct_answer = q.answer := by
  have hca : correctAnswerFromQuestion q = q.answer := by
    simp [correctAnswerFromQuestion, hq]
  have h1 := expectedAnswerOf_populated q ai.correct_answer hq
  have h2 := expectedAnswerOf_populated q (correctAnswerFromQuestion q) hq
  refine ⟨h1.1, h1.2, ?_, hca, ?_⟩
  · show expectedAnswerOf q (correctAnswerFromQuestion q) ≠ ""
    exact h2.1
  · show expectedAnswerOf q (correctAnswerFromQuestion q) = q.answer
    by_cases hz : correctAnswerFromQuestion q = ""
    · rw [hca] at hz
      exact absurd hz hq
    · rw [hca]
      simp [expectedAnswerOf, hq]

/-- Witness for C7 at a concrete grammar question with a populated answer. -/
theorem C7_correct_answer_populated_witness :
    (handleAnswerAIFeedback
        ⟨"the cats is playing", "The Cats Are Playing", "", "Grammar Correction"⟩
        ⟨.vBool true, "", ""⟩).correct_answer ≠ "" ∧
    (submitGrammarAnswer
        ⟨"the cats is playing", "The Cats Are Playing", "", "Grammar Correction"⟩
        none "the cats are playing").correct_answer ≠ "" := by
  have h := C7_correct_answer_populated
    ⟨"the cats is playing", "The Cats Are Playing", "", "Grammar Correction"⟩
    ⟨.vBool true, "", ""⟩ none "the cats are playing" (by decide)
  exact ⟨h.1, h.2.2.1⟩

/-- C8 counterexample: from settings (Math, Word Problems), updating the
sub-activity to the unregistered value "Bogus" does not leave the stored
settings unchanged — the merge stores "Bogus", and after the validation
effect runs the sub-activity is the subject's default
"Addition/Subtraction", not the previous value "Word Problems". -/
theorem C8_counterexample_invalid_update :
    updateSettings ⟨"Math", "Word Problems", "Easy"⟩ ⟨none, some "Bogus", none⟩ ≠
      ⟨"Math", "Word Problems", "Easy"⟩ ∧
    (updateSettings ⟨"Math", "Word Problems", "Easy"⟩
        ⟨none, some "Bogus", none⟩).sub_activity = "Bogus" ∧
    (settledUpdate ⟨"Math", "Word Problems", "Easy"⟩
        ⟨none, some "Bogus", none⟩).sub_activity = "Addition/Subtraction" := by
  refine ⟨by decide, rfl, by decide⟩

/-- C8 (amended): updateSettings stores any merge result unvalidated; the
validation effect then replaces a sub-activity that is not registered for
the stored subject with that subject's first registered activity, so every
settled settings state has a registered sub-activity and the subject is
never altered by validation. -/
theorem C8_settings_validation (s : Settings) (p : SettingsPatch)
    (h : (updateSettings s p).subject = "Math" ∨ (updateSettings s p).subject = "English") :
    (SUB_ACTIVITIES (settledUpdate s p).subject).contains
      (settledUpdate s p).sub_activity = true ∧
    (settledUpdate s p).subject = (updateSettings s p).subject ∧
    ((SUB_ACTIVITIES (updateSettings s p).subject).contains
        (updateSettings s p).sub_activity = false →
      (settledUpdate s p).sub_activity =
        (SUB_ACTIVITIES (updateSettings s p).subject).headI) := by
  have hne : ((updateSettings s p).subject != "") = true := by
    rcases h with h | h <;> rw [h] <;> decide
  have hdefc : (SUB_ACTIVITIES (updateSettings s p).subject).contains
      (getDefaultSubActivity (updateSettings s p).subject) = true := by
    rcases h with h | h <;> rw [h] <;> decide
  have hdefh : getDefaultSubActivity (updateSettings s p).subject =
      (SUB_ACTIVITIES (updateSettings s p).subject).headI := by
    rcases h with h | h <;> rw [h] <;> decide
  by_cases hc : (SUB_ACTIVITIES (updateSettings s p).subject).contains
      (updateSettings s p).sub_activity = true
  · have hv : settledUpdate s p = updateSettings s p := by
      unfold settledUpdate validateSubActivity
      rw [if_pos hne, if_pos hc]
    rw [hv]
    exact ⟨hc, rfl, fun hfalse => absurd (hfalse ▸ hc) Bool.false_ne_true⟩
  · have hv : settledUpdate s p =
        { updateSettings s p with
          sub_activity := getDefaultSubActivity (updateSettings s p).subject } := by
      unfold settledUpdate validateSubActivity
      rw [if_pos hne, if_neg hc]
    rw [hv]
    exact ⟨hdefc, rfl, fun _ => hdefh⟩

/-- Witness for C8: a subject change to English invalidates the Math
sub-activity "Word Problems" and the settled state holds English's first
registered activity. -/
theorem C8_settings_validation_witness :
    (SUB_ACTIVITIES (settledUpdate ⟨"Math", "Word Problems", "Easy"⟩
        ⟨some "English", none, none⟩).subject).contains
      (settledUpdate ⟨"Math", "Word Problems", "Easy"⟩
        ⟨some "English", none, none⟩).sub_activity = true := by
  exact (C8_settings_validation ⟨"Math", "Word Problems", "Easy"⟩
    ⟨some "English", none, none⟩ (Or.inr rfl)).1

/-- C1: with an active question and player, a selected choice and no prior
submission, a second Submit press — whether before the first submission
resolves or after its feedback is shown — is a no-op: the pair of presses
yields exactly the state of a single press, the question count rises by
exactly 1, and the stored feedback is that of the single resolution. -/
theorem C1_double_submit_noop (st : UIState) (result : Feedback)
    (hchoice : st.qd.selectedChoice.isNone = false)
    (hload : st.game.loading = false)
    (hsub : isSubmitted st = false)
    (hq : st.game.currentQuestion.isNone = false)
    (hp : st.game.selectedPlayer.isNone = false) :
    handleSubmitPress (handleSubmitPress st) = handleSubmitPress st ∧
    resolveSubmit (handleSubmitPress (handleSubmitPress st)) result =
      resolveSubmit (handleSubmitPress st) result ∧
    handleSubmitPress (resolveSubmit (handleSubmitPress st) result) =
      resolveSubmit (handleSubmitPress st) result ∧
    (resolveSubmit (handleSubmitPress st) result).game.counters.questionCount =
      st.game.counters.questionCount + 1 ∧
    (resolveSubmit (handleSubmitPress st) result).game.feedback = some result := by
  have h1 : handleSubmitPress st =
      { st with
        qd := { st.qd with localSubmitted := true }
        pendingSubmits := st.pendingSubmits + 1
        game := { st.game with loading := true } } := by
    unfold handleSubmitPress
    simp [hchoice, hload, hsub, hq, hp]
  have h2 : handleSubmitPress (handleSubmitPress st) = handleSubmitPress st := by
    rw [h1]
    unfold handleSubmitPress
    simp
  have h3 : resolveSubmit (handleSubmitPress st) result =
      { st with
        qd := { st.qd with localSubmitted := true }
        pendingSubmits := st.pendingSubmits
        game := { st.game with
          feedback := some result
          counters := handleAnswerCounters st.game.counters (jsBoolean result.is_correct)
          loading := false } } := by
    rw [h1]
    unfold resolveSubmit
    simp
  have h4 : handleSubmitPress (resolveSubmit (handleSubmitPress st) result) =
      resolveSubmit (handleSubmitPress st) result := by
    rw [h3]
    unfold handleSubmitPress
    simp [isSubmitted]
  refine ⟨h2, by rw [h2], h4, ?_, by rw [h3]⟩
  rw [h3]
  show (handleAnswerCounters st.game.counters (jsBoolean result.is_correct)).questionCount =
    st.game.counters.questionCount + 1
  cases jsBoolean result.is_correct <;> rfl

/-- Witness for C1 at a concrete ready-to-submit state. -/
theorem C1_double_submit_noop_witness :
    (resolveSubmit (handleSubmitPress
        ⟨⟨some ⟨"2+2?", "4", "", "Addition/Subtraction"⟩, some 1, none, ⟨0, 0, 0⟩, false⟩,
         ⟨some "4", false⟩, 0⟩)
      ⟨.vBool true, "4", false, "Correct!"⟩).game.counters.questionCount = 0 + 1 := by
  exact (C1_double_submit_noop
    ⟨⟨some ⟨"2+2?", "4", "", "Addition/Subtraction"⟩, some 1, none, ⟨0, 0, 0⟩, false⟩,
     ⟨some "4", false⟩, 0⟩
    ⟨.vBool true, "4", false, "Correct!"⟩
    rfl rfl rfl rfl rfl).2.2.2.1

/-- C2 counterexample: a next-question fetch that resolves after
resetGameState ran (as on resetSession or player change) does populate the
post-reset session — the stale question is stored even though the reset had
set currentQuestion to null. -/
theorem C2_counterexample_stale_population :
    (nextQuestionResolve
      (resetGameState (nextQuestionStart
        ⟨some ⟨"old", "a", "", "Addition/Subtraction"⟩, none, none, 30, 3, false, false, false⟩))
      ⟨"stale", "b", "", "Addition/Subtraction"⟩).currentQuestion =
      some ⟨"stale", "b", "", "Addition/Subtraction"⟩ ∧
    some (⟨"stale", "b", "", "Addition/Subtraction"⟩ : Question) ≠ (none : Option Question) := by
  exact ⟨rfl, by decide⟩

/-- C2 (amended): there is no request token, so a question fetch still
pending when resetGameState runs later overwrites currentQuestion with its
stale result; only the counters and the feedback keep their reset values. -/
theorem C2_stale_fetch_overwrites_question (s : FetchSession) (q : Question) :
    (nextQuestionResolve (resetGameState (nextQuestionStart s)) q).currentQuestion = some q ∧
    (nextQuestionResolve (resetGameState (nextQuestionStart s)) q).score = 0 ∧
    (nextQuestionResolve (resetGameState (nextQuestionStart s)) q).questionCount = 0 ∧
    (nextQuestionResolve (resetGameState (nextQuestionStart s)) q).feedback = none := by
  simp [nextQuestionStart, resetGameState, nextQuestionResolve]

/-- C9: at the failing input — feedback shown, countdown running — the
countdown only decrements the displayed number and the 6-second timer's
expiry performs no action at all: nextQuestion is invoked zero times, not
exactly once as claimed. -/
theorem C9_timer_expiry_invokes_nothing :
    nextQuestionTimerOnExpire.count UIAction.invokeNextQuestion = 0 ∧
    countdownTick ⟨6, true, true⟩ = ⟨5, true, true⟩ ∧
    countdownTick ⟨0, true, true⟩ = ⟨0, true, true⟩ := by
  exact ⟨rfl, rfl, rfl⟩

end KidSkills
